import Mathlib

/-!
Shallow embedding of the worker-side execution engine of the repository
(src/app/mod.rs and src/broker/mod.rs), with theorems checking the
natural-language specification against it.

Conventions of the embedding:
* Rust `usize` fields become `Nat`; the `pending_tasks : i32` counter becomes
  `Int`.
* Asynchronous, fallible operations become pure values of `Except ErrorKind _`;
  the side effects performed on the broker are recorded as an explicit list of
  `BrokerOp` values, in invocation order.
* Time is an explicit `Nat` parameter (seconds since an arbitrary origin);
  `is_delayed` and the ETA sleep performed by `trace` are modelled over it.
* The `select!` loops of `Celery::consume` are modelled as functions over the
  list of items the select arms deliver, in arrival order.
-/

namespace RustyCelery

/-- Modelled from the spec: the structured error kinds of §7 (`ErrorKind` lives
in the crate root, outside src/); the variants used by src/app/mod.rs are
`SyncError`, `TaskAlreadyExists`, `UnregisteredTaskError`, `Retry` and
`ForcedShutdown`, and `e.kind()` is the identity in this model. -/
inductive ErrorKind where
  | brokerError
  | protocolError
  | unregisteredTaskError (name : String)
  | taskAlreadyExists (name : String)
  | syncError
  | timeoutError
  | retry
  | expiredError
  | forcedShutdown
  deriving Repr, DecidableEq, BEq

/-- `TaskStatus` from src/app/mod.rs: the payload of a `TaskEvent`. -/
inductive TaskStatus where
  | pending
  | finished
  deriving Repr, DecidableEq, BEq

/-- `TaskOptions` from src/app/mod.rs lines 14-20. -/
structure TaskOptions where
  timeout : Option Nat
  max_retries : Option Nat
  min_retry_delay : Nat
  max_retry_delay : Nat
  deriving Repr, DecidableEq, BEq

/-- The four optional per-kind overrides a `Task` supplies (the `Task` trait is
outside src/; its `timeout()`, `max_retries()`, `min_retry_delay()`,
`max_retry_delay()` accessors all return `Option` values, as used by
`TaskOptions::overrides`). -/
structure TaskOverrides where
  timeout : Option Nat
  max_retries : Option Nat
  min_retry_delay : Option Nat
  max_retry_delay : Option Nat
  deriving Repr, DecidableEq, BEq

/-- `TaskOptions::overrides` from src/app/mod.rs lines 23-30:
`timeout`/`max_retries` use `task.or(base)`, the two retry delays use
`task.unwrap_or(base)`. -/
def TaskOptions.overrides (self : TaskOptions) (task : TaskOverrides) : TaskOptions :=
  { timeout := task.timeout.or self.timeout
    max_retries := task.max_retries.or self.max_retries
    min_retry_delay := task.min_retry_delay.getD self.min_retry_delay
    max_retry_delay := task.max_retry_delay.getD self.max_retry_delay }

/-- The slice of a protocol `Message` the dispatcher reads: `headers.task`
(src/app/mod.rs line 197, line 200). -/
structure MessageHeaders where
  task : String
  deriving Repr, DecidableEq, BEq

structure Message where
  headers : MessageHeaders
  deriving Repr, DecidableEq, BEq

/-- A broker delivery, exposing `try_into_message()` (src/app/mod.rs line 214). -/
structure Delivery where
  tryIntoMessage : Except ErrorKind Message

/-- Behavioural model of a live tracer, the value produced by a registered
`TraceBuilder`. Modelled from the spec: the tracer implementation
(src/app/trace.rs, `mod trace`) is not under src/, so its observable behaviour
is taken from §4.4: `eta` is the optional absolute ETA from the message
headers, `traceError` is `none` when `trace()` returns Ok and `some k` when it
fails with kind `k`, `retryEta` is what `retry_eta()` returns, and
`execDuration` is the time `execute` takes once any ETA sleep is over. -/
structure TracerModel where
  eta : Option Nat
  traceError : Option ErrorKind
  retryEta : Option Nat
  execDuration : Nat

/-- Modelled from the spec, §4.4: `is_delayed()` returns true iff `headers.eta`
is set and in the future at the moment of evaluation. -/
def TracerModel.isDelayed (t : TracerModel) (now : Nat) : Bool :=
  match t.eta with
  | some e => decide (now < e)
  | none => false

/-- Modelled from the spec, §4.4: `trace()` sleeps until the ETA if delayed and
then runs `execute`; this is the clock value at the moment `trace()` returns. -/
def TracerModel.traceEnd (t : TracerModel) (now : Nat) : Nat :=
  (match t.eta with
   | some e => Nat.max now e
   | none => now) + t.execDuration

/-- A registry entry: `build_tracer::<T>` takes the message and the app's
default `TaskOptions` (the event sender is elided: the claims checked here do
not observe it) and may fail (src/app/mod.rs line 198 applies `?` to it). -/
def TraceBuilder : Type :=
  Message → TaskOptions → Except ErrorKind TracerModel

/-- The `task_trace_builders` map, as an association list keyed by task name. -/
def Registry : Type :=
  List (String × TraceBuilder)

/-- `Celery::register_task` from src/app/mod.rs lines 174-186, modelled on the
map it mutates (the `RwLock` is elided in this single-threaded embedding, so
the poisoned-lock `SyncError` path does not arise): if the name is present the
call fails with `TaskAlreadyExists` and the map is returned untouched,
otherwise the builder is inserted. Returns (call result, resulting map). -/
def registerTask (registry : Registry) (name : String) (builder : TraceBuilder) :
    Except ErrorKind Unit × Registry :=
  if (registry.lookup name).isSome then
    (.error (.taskAlreadyExists name), registry)
  else
    (.ok (), (name, builder) :: registry)

/-- `Celery::get_task_tracer` from src/app/mod.rs lines 188-202 (again minus
the elided read lock): look the task name up; unknown names fail with
`UnregisteredTaskError`, otherwise the builder runs on the message and the
app's default options. -/
def getTaskTracer (registry : Registry) (opts : TaskOptions) (message : Message) :
    Except ErrorKind TracerModel :=
  match registry.lookup message.headers.task with
  | some builder => builder message opts
  | none => .error (.unregisteredTaskError message.headers.task)

/-- The broker operations `try_handle_delivery` can invoke, recorded in
invocation order. -/
inductive BrokerOp where
  | ack
  | retryOp (eta : Option Nat)
  | increasePrefetchCount
  | decreasePrefetchCount
  deriving Repr, DecidableEq, BEq

/-- Outcomes of the broker operations during one handling run; `Except` results
model the `Result` each call returns (`.error` still means the call was made). -/
structure BrokerBehavior where
  ackResult : Except ErrorKind Unit
  retryResult : Except ErrorKind Unit
  increaseResult : Except ErrorKind Unit
  decreaseResult : Except ErrorKind Unit

/-- The observable outcome of one `try_handle_delivery` run: the broker calls
made, in order, and the returned `Result`. -/
structure HandlerTrace where
  ops : List BrokerOp
  result : Except ErrorKind Unit
  deriving Repr

/-- src/app/mod.rs lines 256-260: after the terminal ack/retry,
`if tracer.is_delayed() { self.broker.decrease_prefetch_count().await?; }`
and then `Ok(())`. `now2` is the clock when this point is reached. -/
def afterTerminal (broker : BrokerBehavior) (tracer : TracerModel)
    (pre : List BrokerOp) (now2 : Nat) : HandlerTrace :=
  if tracer.isDelayed now2 then
    match broker.decreaseResult with
    | .error e => { ops := pre ++ [.decreasePrefetchCount], result := .error e }
    | .ok _ => { ops := pre ++ [.decreasePrefetchCount], result := .ok () }
  else
    { ops := pre, result := .ok () }

/-- src/app/mod.rs lines 243-258: `match tracer.trace().await` — Ok acks, an
error of kind `Retry` retries with `tracer.retry_eta()`, any other error acks;
each transport call propagates its own failure via `?`. -/
def afterPrefetch (broker : BrokerBehavior) (tracer : TracerModel)
    (pre : List BrokerOp) (now : Nat) : HandlerTrace :=
  let now2 := tracer.traceEnd now
  match tracer.traceError with
  | none =>
    match broker.ackResult with
    | .error ae => { ops := pre ++ [.ack], result := .error ae }
    | .ok _ => afterTerminal broker tracer (pre ++ [.ack]) now2
  | some k =>
    match k with
    | .retry =>
      match broker.retryResult with
      | .error re => { ops := pre ++ [.retryOp tracer.retryEta], result := .error re }
      | .ok _ => afterTerminal broker tracer (pre ++ [.retryOp tracer.retryEta]) now2
    | _ =>
      match broker.ackResult with
      | .error ae => { ops := pre ++ [.ack], result := .error ae }
      | .ok _ => afterTerminal broker tracer (pre ++ [.ack]) now2

/-- `Celery::try_handle_delivery` from src/app/mod.rs lines 206-261, as a pure
function from the delivery result, the registry, the default options and the
current time to the trace of broker calls and the returned `Result`. -/
def tryHandleDelivery (broker : BrokerBehavior) (registry : Registry)
    (opts : TaskOptions) (deliveryResult : Except ErrorKind Delivery)
    (now : Nat) : HandlerTrace :=
  match deliveryResult with
  | .error e => { ops := [], result := .error e }
  | .ok delivery =>
    match delivery.tryIntoMessage with
    | .error e =>
      match broker.ackResult with
      | .error ae => { ops := [.ack], result := .error ae }
      | .ok _ => { ops := [.ack], result := .error e }
    | .ok message =>
      match getTaskTracer registry opts message with
      | .error e =>
        match broker.ackResult with
        | .error ae => { ops := [.ack], result := .error ae }
        | .ok _ => { ops := [.ack], result := .error e }
      | .ok tracer =>
        if tracer.isDelayed now then
          match broker.increaseResult with
          | .error e =>
            match broker.retryResult with
            | .error re =>
              { ops := [.increasePrefetchCount, .retryOp none], result := .error re }
            | .ok _ =>
              { ops := [.increasePrefetchCount, .retryOp none], result := .error e }
          | .ok _ => afterPrefetch broker tracer [.increasePrefetchCount] now
        else
          afterPrefetch broker tracer [] now

/-- Terminal transport operations: `ack` and `retry`. -/
def BrokerOp.isTerminal : BrokerOp → Bool
  | .ack => true
  | .retryOp _ => true
  | _ => false

/-- The terminal operation the spec prescribes for a trace outcome: ack on Ok,
retry with `retry_eta()` on an error of kind `Retry`, ack on any other error. -/
def expectedTerminal (tracer : TracerModel) : BrokerOp :=
  match tracer.traceError with
  | none => .ack
  | some .retry => .retryOp tracer.retryEta
  | some _ => .ack

/-- A broker run in which every transport operation succeeds. -/
def brokerAllOk : BrokerBehavior :=
  { ackResult := .ok ()
    retryResult := .ok ()
    increaseResult := .ok ()
    decreaseResult := .ok () }

/-- A tracer with no ETA whose task succeeds immediately. -/
def immediateTracer : TracerModel :=
  { eta := none, traceError := none, retryEta := none, execDuration := 0 }

/-- A tracer whose message carries ETA = 5 and whose task succeeds right after
the ETA sleep. -/
def delayedTracer : TracerModel :=
  { eta := some 5, traceError := none, retryEta := none, execDuration := 0 }

def exampleMessage : Message := ⟨⟨"add"⟩⟩

def exampleDelivery : Delivery := ⟨.ok exampleMessage⟩

def exampleRegistry : Registry := [("add", fun _ _ => .ok immediateTracer)]

def delayedRegistry : Registry := [("add", fun _ _ => .ok delayedTracer)]

/-- The operation names the `Broker` trait in src/broker/mod.rs (lines 7-23)
declares: `consume`, `ack` and `send_task`. -/
def brokerTraitOps : List String := ["consume", "ack", "send_task"]

/-- The broker operation names the engine core in src/app/mod.rs invokes:
`consume` (line 277), `ack` (lines 217, 225, 245, 252), `retry` (lines 238,
250), `increase_prefetch_count` (line 232), `decrease_prefetch_count`
(line 257) and `send` (line 170). -/
def engineBrokerOps : List String :=
  ["consume", "ack", "retry", "increase_prefetch_count",
   "decrease_prefetch_count", "send"]

/-- `pending_tasks += 1` on `Pending`, `-= 1` on `Finished`
(src/app/mod.rs lines 311-314 and 334-337). -/
def applyEvent (pending : Int) : TaskStatus → Int
  | .pending => pending + 1
  | .finished => pending - 1

/-- What the three select arms of the main consume loop can deliver, in arrival
order: a delivery result (`Some` from the fused stream), the stream reporting
exhaustion (`None` from the fused stream), an interrupt signal, or a task
event from the event channel. -/
inductive MainInput where
  | delivery
  | streamClosed
  | interrupt
  | taskEvent (s : TaskStatus)
  deriving Repr, DecidableEq, BEq

/-- State of the main consume loop after processing a list of arrivals: either
still looping (with the current `pending_tasks`), or broken out of the loop by
an interrupt (with the `pending_tasks` value it carries into warm shutdown). -/
inductive MainOutcome where
  | running (pending : Int)
  | interrupted (pending : Int)
  deriving Repr, DecidableEq, BEq

/-- The main `loop { select! { ... } }` of `Celery::consume`
(src/app/mod.rs lines 295-318): a delivery spawns a handler and the loop
continues; a `None` from the fused delivery stream does nothing; an interrupt
breaks the loop; a task event updates `pending_tasks`. -/
def mainLoop (pending : Int) : List MainInput → MainOutcome
  | [] => .running pending
  | .delivery :: rest => mainLoop pending rest
  | .streamClosed :: rest => mainLoop pending rest
  | .interrupt :: _ => .interrupted pending
  | .taskEvent s :: rest => mainLoop (applyEvent pending s) rest

/-- True when no interrupt signal occurs among the arrivals. -/
def noInterruptMain (ins : List MainInput) : Bool :=
  ins.all fun i => match i with | .interrupt => false | _ => true

/-- What the two select arms of the warm-shutdown loop can deliver: a second
interrupt signal or a task event. -/
inductive WarmInput where
  | interrupt
  | taskEvent (s : TaskStatus)
  deriving Repr, DecidableEq, BEq

/-- State of the warm-shutdown loop after processing a list of arrivals:
still waiting (with the current `pending_tasks`), returned
`Err(ForcedShutdown)`, or broken out normally (with the `pending_tasks`
value at the break). -/
inductive WarmOutcome where
  | stillWaiting (pending : Int)
  | forced
  | completed (pending : Int)
  deriving Repr, DecidableEq, BEq

/-- The warm-shutdown `loop { select! { ... } }` of `Celery::consume`
(src/app/mod.rs lines 325-344): a signal returns `Err(ForcedShutdown)`; a task
event updates `pending_tasks` and the loop breaks when `pending_tasks <= 0`. -/
def warmShutdownLoop (pending : Int) : List WarmInput → WarmOutcome
  | [] => .stillWaiting pending
  | .interrupt :: _ => .forced
  | .taskEvent s :: rest =>
    let p := applyEvent pending s
    if p ≤ 0 then .completed p else warmShutdownLoop p rest

/-- True when no second interrupt occurs among the arrivals. -/
def noInterruptWarm (ins : List WarmInput) : Bool :=
  ins.all fun i => match i with | .interrupt => false | _ => true

/-- `Config` as produced by `CeleryBuilder::new` (src/app/mod.rs lines 50-58). -/
structure Config (B : Type) where
  name : String
  broker : B
  default_queue_name : String
  task_options : TaskOptions

/-- `CeleryBuilder::new` from src/app/mod.rs lines 73-87. -/
def celeryBuilderNew (B : Type) (name : String) (broker : B) : Config B :=
  { name := name
    broker := broker
    default_queue_name := "celery"
    task_options :=
      { timeout := none
        max_retries := none
        min_retry_delay := 0
        max_retry_delay := 3600 } }

/-- The `Celery` app record (src/app/mod.rs lines 132-148). -/
structure CeleryModel (B : Type) where
  name : String
  broker : B
  default_queue_name : String
  task_trace_builders : Registry
  task_options : TaskOptions

/-- `CeleryBuilder::build` from src/app/mod.rs lines 120-128: the registry
starts as an empty map. -/
def buildCelery (B : Type) (config : Config B) : CeleryModel B :=
  { name := config.name
    broker := config.broker
    default_queue_name := config.default_queue_name
    task_trace_builders := []
    task_options := config.task_options }

end RustyCelery

namespace RustyCelery

theorem mainLoop_interrupted_mem (ins : List MainInput) :
    ∀ p q, mainLoop p ins = .interrupted q → MainInput.interrupt ∈ ins := by
  induction ins with
  | nil =>
    intro p q h
    simp [mainLoop] at h
  | cons i rest ih =>
    intro p q h
    cases i with
    | delivery =>
      simp [mainLoop] at h
      exact List.mem_cons_of_mem _ (ih p q h)
    | streamClosed =>
      simp [mainLoop] at h
      exact List.mem_cons_of_mem _ (ih p q h)
    | interrupt =>
      exact List.mem_cons_self _ _
    | taskEvent s =>
      simp [mainLoop] at h
      exact List.mem_cons_of_mem _ (ih _ q h)

theorem mainLoop_no_interrupt_running (ins : List MainInput) :
    ∀ p, noInterruptMain ins = true → ∃ q, mainLoop p ins = .running q := by
  induction ins with
  | nil =>
    intro p _
    exact ⟨p, rfl⟩
  | cons i rest ih =>
    intro p hn
    cases i with
    | delivery =>
      exact ih p (by simpa [noInterruptMain] using hn)
    | streamClosed =>
      exact ih p (by simpa [noInterruptMain] using hn)
    | interrupt =>
      simp [noInterruptMain] at hn
    | taskEvent s =>
      exact ih (applyEvent p s) (by simpa [noInterruptMain] using hn)

theorem warmShutdownLoop_append_interrupt (ins : List WarmInput) :
    ∀ p q rest, warmShutdownLoop p ins = .stillWaiting q →
      warmShutdownLoop p (ins ++ .interrupt :: rest) = .forced := by
  induction ins with
  | nil =>
    intro p q rest _
    rfl
  | cons i tail ih =>
    intro p q rest h
    cases i with
    | interrupt =>
      simp [warmShutdownLoop] at h
    | taskEvent s =>
      by_cases hle : applyEvent p s ≤ 0
      · simp [warmShutdownLoop, hle] at h
      · simp only [warmShutdownLoop, hle, if_false, List.cons_append] at h ⊢
        exact ih _ q rest h

theorem warmShutdownLoop_drains (ins : List WarmInput) :
    ∀ p, 0 < p → noInterruptWarm ins = true →
      warmShutdownLoop p ins = .completed 0
      ∨ ∃ q, warmShutdownLoop p ins = .stillWaiting q ∧ 0 < q := by
  induction ins with
  | nil =>
    intro p hp _
    exact Or.inr ⟨p, rfl, hp⟩
  | cons i tail ih =>
    intro p hp hn
    cases i with
    | interrupt =>
      simp [noInterruptWarm] at hn
    | taskEvent s =>
      have hn2 : noInterruptWarm tail = true := by
        simpa [noInterruptWarm] using hn
      by_cases hle : applyEvent p s ≤ 0
      · left
        have hz : applyEvent p s = 0 := by
          cases s <;> simp [applyEvent] at hle ⊢ <;> omega
        simp [warmShutdownLoop, hle, hz]
      · have hpos : 0 < applyEvent p s := by omega
        have := ih (applyEvent p s) hpos hn2
        simpa [warmShutdownLoop, hle] using this

theorem expectedTerminal_isTerminal (tracer : TracerModel) :
    (expectedTerminal tracer).isTerminal = true := by
  unfold expectedTerminal
  rcases tracer.traceError with _ | k
  · rfl
  · cases k <;> rfl

theorem afterTerminal_ops (broker : BrokerBehavior) (tracer : TracerModel)
    (pre : List BrokerOp) (now2 : Nat) :
    ∃ tail, (afterTerminal broker tracer pre now2).ops = pre ++ tail
      ∧ tail.filter BrokerOp.isTerminal = [] := by
  unfold afterTerminal
  by_cases h : tracer.isDelayed now2 = true
  · rcases hd : broker.decreaseResult with e | u
    · exact ⟨[.decreasePrefetchCount], by simp [h, hd], rfl⟩
    · exact ⟨[.decreasePrefetchCount], by simp [h, hd], rfl⟩
  · exact ⟨[], by simp [h], rfl⟩

theorem afterPrefetch_ops (broker : BrokerBehavior) (tracer : TracerModel)
    (pre : List BrokerOp) (now : Nat) :
    ∃ tail, (afterPrefetch broker tracer pre now).ops
        = (pre ++ [expectedTerminal tracer]) ++ tail
      ∧ tail.filter BrokerOp.isTerminal = [] := by
  rcases htr : tracer.traceError with _ | k
  · rcases ha : broker.ackResult with e | u
    · exact ⟨[], by simp [afterPrefetch, expectedTerminal, htr, ha], rfl⟩
    · obtain ⟨tail, hops, hfil⟩ :=
        afterTerminal_ops broker tracer (pre ++ [.ack]) (tracer.traceEnd now)
      exact ⟨tail, by simp [afterPrefetch, expectedTerminal, htr, ha, hops], hfil⟩
  · cases k with
    | retry =>
      rcases hr : broker.retryResult with e | u
      · exact ⟨[], by simp [afterPrefetch, expectedTerminal, htr, hr], rfl⟩
      · obtain ⟨tail, hops, hfil⟩ :=
          afterTerminal_ops broker tracer
            (pre ++ [.retryOp tracer.retryEta]) (tracer.traceEnd now)
        exact ⟨tail, by simp [afterPrefetch, expectedTerminal, htr, hr, hops], hfil⟩
    | brokerError =>
      rcases ha : broker.ackResult with e | u
      · exact ⟨[], by simp [afterPrefetch, expectedTerminal, htr, ha], rfl⟩
      · obtain ⟨tail, hops, hfil⟩ :=
          afterTerminal_ops broker tracer (pre ++ [.ack]) (tracer.traceEnd now)
        exact ⟨tail, by simp [afterPrefetch, expectedTerminal, htr, ha, hops], hfil⟩
    | protocolError =>
      rcases ha : broker.ackResult with e | u
      · exact ⟨[], by simp [afterPrefetch, expectedTerminal, htr, ha], rfl⟩
      · obtain ⟨tail, hops, hfil⟩ :=
          afterTerminal_ops broker tracer (pre ++ [.ack]) (tracer.traceEnd now)

        exact ⟨tail, by simp [afterPrefetch, expectedTerminal, htr, ha, hops], hfil⟩
    | unregisteredTaskError name =>
      rcases ha : broker.ackResult with e | u
      · exact ⟨[], by simp [afterPrefetch, expectedTerminal, htr, ha], rfl⟩
      · obtain ⟨tail, hops, hfil⟩ :=
          afterTerminal_ops broker tracer (pre ++ [.ack]) (tracer.traceEnd now)
        exact ⟨tail, by simp [afterPrefetch, expectedTerminal, htr, ha, hops], hfil⟩
    | taskAlreadyExists name =>
      rcases ha : broker.ackResult with e | u
      · exact ⟨[], by simp [afterPrefetch, expectedTerminal, htr, ha], rfl⟩
      · obtain ⟨tail, hops, hfil⟩ :=
          afterTerminal_ops broker tracer (pre ++ [.ack]) (tracer.traceEnd now)
        exact ⟨tail, by simp [afterPrefetch, expectedTerminal, htr, ha, hops], hfil⟩
    | syncError =>
      rcases ha : broker.ackResult with e | u
      · exact ⟨[], by simp [afterPrefetch, expectedTerminal, htr, ha], rfl⟩
      · obtain ⟨tail, hops, hfil⟩ :=
          afterTerminal_ops broker tracer (pre ++ [.ack]) (tracer.traceEnd now)
        exact ⟨tail, by simp [afterPrefetch, expectedTerminal, htr, ha, hops], hfil⟩
    | timeoutError =>
      rcases ha : broker.ackResult with e | u
      · exact ⟨[], by simp [afterPrefetch, expectedTerminal, htr, ha], rfl⟩
      · obtain ⟨tail, hops, hfil⟩ :=
          afterTerminal_ops broker tracer (pre ++ [.ack]) (tracer.traceEnd now)
        exact ⟨tail, by simp [afterPrefetch, expectedTerminal, htr, ha, hops], hfil⟩
    | expiredError =>
      rcases ha : broker.ackResult with e | u
      · exact ⟨[], by simp [afterPrefetch, expectedTerminal, htr, ha], rfl⟩
      · obtain ⟨tail, hops, hfil⟩ :=
          afterTerminal_ops broker tracer (pre ++ [.ack]) (tracer.traceEnd now)
        exact ⟨tail, by simp [afterPrefetch, expectedTerminal, htr, ha, hops], hfil⟩
    | forcedShutdown =>
      rcases ha : broker.ackResult with e | u
      · exact ⟨[], by simp [afterPrefetch, expectedTerminal, htr, ha], rfl⟩
      · obtain ⟨tail, hops, hfil⟩ :=
          afterTerminal_ops broker tracer (pre ++ [.ack]) (tracer.traceEnd now)
        exact ⟨tail, by simp [afterPrefetch, expectedTerminal, htr, ha, hops], hfil⟩

theorem afterPrefetch_filter (broker : BrokerBehavior) (tracer : TracerModel)
    (pre : List BrokerOp) (now : Nat)
    (hpre : pre.filter BrokerOp.isTerminal = []) :
    (afterPrefetch broker tracer pre now).ops.filter BrokerOp.isTerminal
      = [expectedTerminal tracer] := by
  obtain ⟨tail, hops, hfil⟩ := afterPrefetch_ops broker tracer pre now
  rw [hops]
  simp [List.filter_append, hpre, hfil, expectedTerminal_isTerminal]

/-- C3: for every delivery that decodes and resolves a tracer, exactly one
terminal broker operation (ack or retry) is invoked; and whenever the handler
reaches `tracer.trace()` (the tracer is not delayed, or the prefetch increase
succeeded), that terminal operation is ack on Ok, retry with
`tracer.retry_eta()` on an error of kind Retry, and ack on any other error. -/
theorem terminal_op_matches_trace_outcome
    (broker : BrokerBehavior) (registry : Registry) (opts : TaskOptions)
    (d : Delivery) (now : Nat) (msg : Message) (tracer : TracerModel)
    (hdec : d.tryIntoMessage = .ok msg)
    (hres : getTaskTracer registry opts msg = .ok tracer) :
    ((tryHandleDelivery broker registry opts (.ok d) now).ops.filter
        BrokerOp.isTerminal).length = 1
    ∧ ((tracer.isDelayed now = false ∨ broker.increaseResult = .ok ()) →
       (tryHandleDelivery broker registry opts (.ok d) now).ops.filter
          BrokerOp.isTerminal = [expectedTerminal tracer]) := by
  unfold tryHandleDelivery
  simp only [hdec, hres]
  by_cases hdel : tracer.isDelayed now = true
  · rcases hi : broker.increaseResult with e | u
    · rcases hr : broker.retryResult with e2 | u2
      · refine ⟨by simp [hdel, hi, hr, BrokerOp.isTerminal], ?_⟩
        intro hreach
        rcases hreach with h | h
        · rw [hdel] at h
          cases h
        · cases h
      · refine ⟨by simp [hdel, hi, hr, BrokerOp.isTerminal], ?_⟩
        intro hreach
        rcases hreach with h | h
        · rw [hdel] at h
          cases h
        · cases h
    · have hfil := afterPrefetch_filter broker tracer [.increasePrefetchCount] now
        (by rfl)
      refine ⟨?_, ?_⟩
      · simp [hdel, hi, hfil]
      · intro _
        simp [hdel, hi, hfil]
  · have hfil := afterPrefetch_filter broker tracer [] now (by rfl)
    refine ⟨?_, ?_⟩
    · simp [hdel, hfil]
    · intro _
      simp [hdel, hfil]

/-- Witness for C3: an immediate, successful task on an all-ok broker run gets
exactly one terminal operation, namely the expected one (an ack). -/
theorem terminal_op_matches_trace_outcome_witness :
    ((tryHandleDelivery brokerAllOk exampleRegistry ⟨none, none, 0, 3600⟩
        (.ok exampleDelivery) 0).ops.filter BrokerOp.isTerminal).length = 1
    ∧ (tryHandleDelivery brokerAllOk exampleRegistry ⟨none, none, 0, 3600⟩
        (.ok exampleDelivery) 0).ops.filter BrokerOp.isTerminal
        = [expectedTerminal immediateTracer] :=
  have h := terminal_op_matches_trace_outcome brokerAllOk exampleRegistry
    ⟨none, none, 0, 3600⟩ exampleDelivery 0 exampleMessage immediateTracer rfl rfl
  ⟨h.1, h.2 (Or.inl rfl)⟩

/-- C4: a delivery that fails to decode, or whose tracer lookup fails (in
particular an unregistered task name), is acknowledged — never retried — and
the decode/lookup error is returned, provided the ack itself succeeds. -/
theorem malformed_or_unknown_acked
    (broker : BrokerBehavior) (registry : Registry) (opts : TaskOptions)
    (d : Delivery) (now : Nat) (e : ErrorKind)
    (h : d.tryIntoMessage = .error e
       ∨ ∃ msg, d.tryIntoMessage = .ok msg
           ∧ getTaskTracer registry opts msg = .error e)
    (hack : broker.ackResult = .ok ()) :
    (tryHandleDelivery broker registry opts (.ok d) now).ops = [.ack]
    ∧ (tryHandleDelivery broker registry opts (.ok d) now).result = .error e := by
  rcases h with h | ⟨msg, hmsg, hres⟩
  · unfold tryHandleDelivery
    simp [h, hack]
  · unfold tryHandleDelivery
    simp [hmsg, hres, hack]

/-- Witness for C4: a delivery carrying the unregistered task name "add" on the
empty registry is acked and `UnregisteredTaskError "add"` is returned. -/
theorem malformed_or_unknown_acked_witness :
    (tryHandleDelivery brokerAllOk [] ⟨none, none, 0, 3600⟩
        (.ok exampleDelivery) 0).ops = [.ack]
    ∧ (tryHandleDelivery brokerAllOk [] ⟨none, none, 0, 3600⟩
        (.ok exampleDelivery) 0).result
      = .error (.unregisteredTaskError "add") :=
  malformed_or_unknown_acked brokerAllOk [] ⟨none, none, 0, 3600⟩
    exampleDelivery 0 (.unregisteredTaskError "add")
    (Or.inr ⟨exampleMessage, rfl, rfl⟩) rfl

/-- C5: the composition of base options with a task's overrides is right-biased
in all four fields, and is the identity when the task supplies no overrides. -/
theorem overrides_right_biased (base : TaskOptions) (t : TaskOverrides) :
    ((base.overrides t).timeout =
       match t.timeout with | some v => some v | none => base.timeout)
    ∧ ((base.overrides t).max_retries =
       match t.max_retries with | some v => some v | none => base.max_retries)
    ∧ ((base.overrides t).min_retry_delay =
       match t.min_retry_delay with | some v => v | none => base.min_retry_delay)
    ∧ ((base.overrides t).max_retry_delay =
       match t.max_retry_delay with | some v => v | none => base.max_retry_delay)
    ∧ (t = ⟨none, none, none, none⟩ → base.overrides t = base) := by
  obtain ⟨a, b, c, d⟩ := t
  refine ⟨?_, ?_, ?_, ?_, ?_⟩ <;>
    cases a <;> cases b <;> cases c <;> cases d <;>
      simp [TaskOptions.overrides, Option.or, Option.getD]

/-- Witness for C5 at concrete inputs, discharging the identity hypothesis. -/
theorem overrides_right_biased_witness :
    (TaskOptions.overrides ⟨some 1, none, 2, 3⟩ ⟨none, none, none, none⟩ =
      (⟨some 1, none, 2, 3⟩ : TaskOptions)) :=
  (overrides_right_biased ⟨some 1, none, 2, 3⟩ ⟨none, none, none, none⟩).2.2.2.2 rfl

/-- C7: from a registry not containing `name`, registering `name` succeeds and
registering it a second time fails with `TaskAlreadyExists name`. -/
theorem register_task_twice (registry : Registry) (name : String)
    (b b2 : TraceBuilder) (h : registry.lookup name = none) :
    (registerTask registry name b).1 = .ok ()
    ∧ (registerTask (registerTask registry name b).2 name b2).1 =
        .error (.taskAlreadyExists name) := by
  constructor
  · simp [registerTask, h]
  · simp [registerTask, h, List.lookup]

/-- Witness for C7: registering "add" twice on the empty registry. -/
theorem register_task_twice_witness :
    (registerTask [] "add" (fun _ _ => .error .syncError)).1 = .ok ()
    ∧ (registerTask
         (registerTask [] "add" (fun _ _ => .error .syncError)).2
         "add" (fun _ _ => .error .syncError)).1 =
        .error (.taskAlreadyExists "add") :=
  register_task_twice [] "add" _ _ rfl

/-- C9: register_task is atomic on failure — whenever it returns an error, the
registry it returns is exactly the registry it was given. -/
theorem register_task_atomic_on_failure (registry : Registry) (name : String)
    (b : TraceBuilder) (e : ErrorKind)
    (h : (registerTask registry name b).1 = .error e) :
    (registerTask registry name b).2 = registry := by
  by_cases hmem : (registry.lookup name).isSome
  · simp [registerTask, hmem]
  · simp [registerTask, hmem] at h

/-- Witness for C9: a second registration of "add" fails and leaves the
one-entry registry unchanged. -/
theorem register_task_atomic_on_failure_witness :
    (registerTask [("add", fun _ _ => .error .syncError)] "add"
       (fun _ _ => .error .syncError)).2 =
      [("add", fun _ _ => .error .syncError)] :=
  register_task_atomic_on_failure _ "add" _ (.taskAlreadyExists "add") rfl

/-- C1: evaluation of the code at a delayed delivery (ETA 5, handled at time 0,
task succeeds, every broker call succeeds). `try_handle_delivery` re-evaluates
`tracer.is_delayed()` after `trace()` returns; by then the ETA sleep has
completed, the ETA is no longer in the future, and `decrease_prefetch_count`
is never invoked: the run performs one `increase_prefetch_count` and zero
`decrease_prefetch_count` calls, refuting the claimed balance. -/
theorem delayed_prefetch_not_decreased :
    (tryHandleDelivery brokerAllOk delayedRegistry ⟨none, none, 0, 3600⟩
        (.ok exampleDelivery) 0).ops = [.increasePrefetchCount, .ack]
    ∧ ((tryHandleDelivery brokerAllOk delayedRegistry ⟨none, none, 0, 3600⟩
        (.ok exampleDelivery) 0).ops.count .increasePrefetchCount = 1
      ∧ (tryHandleDelivery brokerAllOk delayedRegistry ⟨none, none, 0, 3600⟩
        (.ok exampleDelivery) 0).ops.count .decreasePrefetchCount = 0) := by
  refine ⟨?_, ?_, ?_⟩ <;> rfl

/-- C2: the `Broker` trait of src/broker/mod.rs declares only `consume`, `ack`
and `send_task`, while the engine invokes `retry`, `increase_prefetch_count`
and `decrease_prefetch_count` on its broker — operations the trait does not
declare. -/
theorem broker_trait_missing_engine_ops :
    ("retry" ∈ engineBrokerOps ∧ "retry" ∉ brokerTraitOps)
    ∧ ("increase_prefetch_count" ∈ engineBrokerOps
        ∧ "increase_prefetch_count" ∉ brokerTraitOps)
    ∧ ("decrease_prefetch_count" ∈ engineBrokerOps
        ∧ "decrease_prefetch_count" ∉ brokerTraitOps) := by
  decide

/-- C6: in the warm-shutdown loop, (a) as long as the loop is still waiting, a
further interrupt signal makes it return `ForcedShutdown`; (b) entered with
`pending_tasks > 0` and in the absence of a second interrupt, the loop exits
normally exactly when the pending counter reaches zero: on normal exit the
counter is exactly 0, and while it keeps waiting the counter is still
positive. -/
theorem warm_shutdown_behaviour (p : Int) (ins : List WarmInput) :
    (∀ q rest, warmShutdownLoop p ins = .stillWaiting q →
       warmShutdownLoop p (ins ++ .interrupt :: rest) = .forced)
    ∧ (0 < p → noInterruptWarm ins = true →
       warmShutdownLoop p ins = .completed 0
       ∨ ∃ q, warmShutdownLoop p ins = .stillWaiting q ∧ 0 < q) :=
  ⟨fun q rest h => warmShutdownLoop_append_interrupt ins p q rest h,
   fun hp hn => warmShutdownLoop_drains ins p hp hn⟩

/-- Witness for C6 at pending = 1 and a single `Finished` event: the interrupt
clause applied to the empty prefix, and the drain clause giving normal exit at
counter 0. -/
theorem warm_shutdown_behaviour_witness :
    warmShutdownLoop 1 ([] ++ .interrupt :: []) = .forced
    ∧ (warmShutdownLoop 1 [.taskEvent .finished] = .completed 0
       ∨ ∃ q, warmShutdownLoop 1 [.taskEvent .finished] = .stillWaiting q ∧ 0 < q) :=
  ⟨(warm_shutdown_behaviour 1 []).1 1 [] rfl,
   (warm_shutdown_behaviour 1 [.taskEvent .finished]).2 (by decide) (by decide)⟩

/-- C10: the main consume loop only exits via an interrupt: whenever it ends in
the interrupted state an interrupt occurred among the arrivals; with no
interrupt it is still running after any sequence of arrivals (including
stream-exhaustion notifications); and a `None` from the fused delivery stream
leaves the loop state exactly as it was. -/
theorem main_loop_exit_only_on_interrupt (p : Int) (ins : List MainInput) :
    (∀ q, mainLoop p ins = .interrupted q → MainInput.interrupt ∈ ins)
    ∧ (noInterruptMain ins = true → ∃ q, mainLoop p ins = .running q)
    ∧ (∀ rest, mainLoop p (.streamClosed :: rest) = mainLoop p rest) :=
  ⟨fun q h => mainLoop_interrupted_mem ins p q h,
   fun hn => mainLoop_no_interrupt_running ins p hn,
   fun _ => rfl⟩

/-- Witness for C10: a run with a delivery, the stream closing, and a task
event — but no interrupt — is still running. -/
theorem main_loop_exit_only_on_interrupt_witness :
    ∃ q, mainLoop 0 [.delivery, .streamClosed, .taskEvent .pending] = .running q :=
  (main_loop_exit_only_on_interrupt 0
      [.delivery, .streamClosed, .taskEvent .pending]).2.1 (by decide)

/-- C8: a newly built engine has default queue name "celery", no default
timeout, no default max_retries, min retry delay 0 and max retry delay 3600. -/
theorem builder_defaults (B : Type) (name : String) (broker : B) :
    (buildCelery B (celeryBuilderNew B name broker)).default_queue_name = "celery"
    ∧ (buildCelery B (celeryBuilderNew B name broker)).task_options.timeout = none
    ∧ (buildCelery B (celeryBuilderNew B name broker)).task_options.max_retries = none
    ∧ (buildCelery B (celeryBuilderNew B name broker)).task_options.min_retry_delay = 0
    ∧ (buildCelery B (celeryBuilderNew B name broker)).task_options.max_retry_delay = 3600 :=
  ⟨rfl, rfl, rfl, rfl, rfl⟩

end RustyCelery
